import Mathlib

/-!
Verification of the Trial_RAG repository's specifiable fragments: the
retry-with-backoff execution wrapper (`_execute_with_retry` in
`p9_audio_processor.py` / `p7_video_processor.py`), the BM25 sparse-encoder
fit-or-load lifecycle (`RetrievalAndIndexingService.__init__` in
`p4_retrieval_service.py`), the Pinecone index create-or-reuse logic,
the media transcription error-tagging, the media file-type classifier
(`get_file_type` in `main.py`), and document dispatch
(`DocumentProcessor.load_and_chunk` in `p2_document_processor.py`).

Python exceptions are modelled with `Except`; a `work` callable whose
behaviour may differ between invocations is modelled as a function from
the invocation index to its outcome. Sleeps are recorded as a list of
rational delays (Python floats hold the exact dyadic values produced by
`initial_delay * (2 ** attempt)` for rational inputs).
-/

namespace TrialRAG

/-- Outcome of the Python function `_execute_with_retry`: a returned value,
a raised exception, or the implicit `None` return when the `for` loop body
never runs (only possible when `max_retries = 0`). -/
inductive PyResult (E A : Type) where
  | ok : A → PyResult E A
  | exn : E → PyResult E A
  | fellThrough : PyResult E A
deriving DecidableEq, Repr

/-- Trace of one call to `_execute_with_retry`: the final outcome, how many
times `func` was invoked, and the sleeps performed (in order). -/
structure RetryTrace (E A : Type) where
  result : PyResult E A
  calls : Nat
  sleeps : List ℚ
deriving DecidableEq, Repr

/-- The body of the Python loop
`for attempt in range(max_retries): try: return func() except: ...`,
indexed by the current `attempt` and the remaining number of loop
iterations (initially `max_retries`, so `attempt + remaining = max_retries`
throughout). On failure with `attempt < max_retries - 1` the code sleeps
`initial_delay * (2 ** attempt)` and retries, else re-raises. -/
def retryAux {E A : Type} (func : Nat → Except E A) (max_retries : Nat)
    (initial_delay : ℚ) : Nat → Nat → RetryTrace E A
  | _attempt, 0 => ⟨PyResult.fellThrough, 0, []⟩
  | attempt, rem + 1 =>
    match func attempt with
    | Except.ok a => ⟨PyResult.ok a, 1, []⟩
    | Except.error e =>
      if attempt < max_retries - 1 then
        let t := retryAux func max_retries initial_delay (attempt + 1) rem
        ⟨t.result, t.calls + 1, initial_delay * 2 ^ attempt :: t.sleeps⟩
      else
        ⟨PyResult.exn e, 1, []⟩

/-- Model of `_execute_with_retry(func, max_retries, initial_delay)`
(identical helper in `p9_audio_processor.py` and `p7_video_processor.py`;
the Python defaults are `max_retries = 3`, `initial_delay = 1.0`). -/
def execute_with_retry {E A : Type} (func : Nat → Except E A)
    (max_retries : Nat) (initial_delay : ℚ) : RetryTrace E A :=
  retryAux func max_retries initial_delay 0 max_retries

/-- The exponential backoff schedule: `n` successive sleeps starting at
attempt index `attempt`, each `d * 2 ^ (attempt + k)`. -/
def backoffSleeps (d : ℚ) (attempt : Nat) : Nat → List ℚ
  | 0 => []
  | n + 1 => d * 2 ^ attempt :: backoffSleeps d (attempt + 1) n

lemma backoffSleeps_length (d : ℚ) :
    ∀ (n attempt : Nat), (backoffSleeps d attempt n).length = n := by
  intro n
  induction n with
  | zero => intro attempt; rfl
  | succ m ih => intro attempt; simp [backoffSleeps, ih (attempt + 1)]

lemma backoffSleeps_get (d : ℚ) :
    ∀ (n attempt k : Nat) (hk : k < (backoffSleeps d attempt n).length),
      (backoffSleeps d attempt n).get ⟨k, hk⟩ = d * 2 ^ (attempt + k) := by
  intro n
  induction n with
  | zero => intro attempt k hk; simp [backoffSleeps] at hk
  | succ m ih =>
    intro attempt k hk
    cases k with
    | zero => simp [backoffSleeps]
    | succ k' =>
      have hk' : k' < (backoffSleeps d (attempt + 1) m).length := by
        simpa [backoffSleeps] using hk
      have h := ih (attempt + 1) k' hk'
      have harith : attempt + 1 + k' = attempt + (k' + 1) := by omega
      simpa [backoffSleeps, harith] using h

/-- If every attempt from `attempt` on fails, the loop re-raises the last
attempt's exception after exhausting the remaining iterations, sleeping the
exponential backoff schedule between attempts. -/
lemma retryAux_all_fail {E A : Type} (func : Nat → Except E A) (m : Nat)
    (d : ℚ) (errs : Nat → E) :
    ∀ (rem attempt : Nat), attempt + rem = m → 0 < rem →
    (∀ j, attempt ≤ j → j < m → func j = Except.error (errs j)) →
    retryAux func m d attempt rem =
      ⟨PyResult.exn (errs (m - 1)), rem, backoffSleeps d attempt (rem - 1)⟩ := by
  intro rem
  induction rem with
  | zero => intro attempt _ h0 _; exact absurd h0 (by omega)
  | succ r ih =>
    intro attempt hsum _h0 hfail
    have he : func attempt = Except.error (errs attempt) :=
      hfail attempt le_rfl (by omega)
    by_cases hcond : attempt < m - 1
    · have hr : 0 < r := by omega
      have hrec := ih (attempt + 1) (by omega) hr
        (fun j hj1 hj2 => hfail j (by omega) hj2)
      have key : r + 1 - 1 = (r - 1) + 1 := by omega
      rw [key]
      simp [retryAux, he, hcond, hrec, backoffSleeps]
    · have hlast : attempt = m - 1 := by omega
      have hrem : r = 0 := by omega
      subst hrem
      have herr : errs attempt = errs (m - 1) := by rw [hlast]
      simp [retryAux, he, hcond, backoffSleeps, herr]

/-- If the first success is at index `i` (everything from `attempt` up to
`i` fails), the loop returns that success after `i + 1 - attempt` calls,
sleeping only before each failed attempt that is retried. -/
lemma retryAux_first_success {E A : Type} (func : Nat → Except E A) (m : Nat)
    (d : ℚ) (i : Nat) (a : A) (hia : func i = Except.ok a) :
    ∀ (rem attempt : Nat), attempt + rem = m → attempt ≤ i → i < m →
    (∀ j, attempt ≤ j → j < i → ∃ e, func j = Except.error e) →
    retryAux func m d attempt rem =
      ⟨PyResult.ok a, i + 1 - attempt, backoffSleeps d attempt (i - attempt)⟩ := by
  intro rem
  induction rem with
  | zero => intro attempt h1 h2 h3 _; exact absurd h3 (by omega)
  | succ r ih =>
    intro attempt hsum hle hlt hfail
    by_cases heq : attempt = i
    · subst heq
      have h1 : attempt + 1 - attempt = 1 := by omega
      have h2 : attempt - attempt = 0 := by omega
      rw [h1, h2]
      simp [retryAux, hia, backoffSleeps]
    · have hlt2 : attempt < i := lt_of_le_of_ne hle heq
      obtain ⟨e, he⟩ := hfail attempt le_rfl hlt2
      have hcond : attempt < m - 1 := by omega
      have hrec := ih (attempt + 1) (by omega) (by omega) hlt
        (fun j hj1 hj2 => hfail j (by omega) hj2)
      have key : i - attempt = (i - (attempt + 1)) + 1 := by omega
      have keyc : i + 1 - (attempt + 1) + 1 = i + 1 - attempt := by omega
      rw [key]
      simp [retryAux, he, hcond, hrec, backoffSleeps, keyc]
      omega

/-- Every trace of `retryAux` sleeps some prefix of the exponential
backoff schedule starting at its initial attempt index. -/
lemma retryAux_sleeps_shape {E A : Type} (func : Nat → Except E A) (m : Nat)
    (d : ℚ) :
    ∀ (rem attempt : Nat), ∃ s,
      (retryAux func m d attempt rem).sleeps = backoffSleeps d attempt s := by
  intro rem
  induction rem with
  | zero => intro attempt; exact ⟨0, rfl⟩
  | succ r ih =>
    intro attempt
    rcases hf : func attempt with e | a
    · by_cases hcond : attempt < m - 1
      · obtain ⟨s, hs⟩ := ih (attempt + 1)
        exact ⟨s + 1, by simp [retryAux, hf, hcond, backoffSleeps, hs]⟩
      · exact ⟨0, by simp [retryAux, hf, hcond, backoffSleeps]⟩
    · exact ⟨0, by simp [retryAux, hf, backoffSleeps]⟩

/-- C1: under a retry policy with `maxAttempts = 3`, initial delay `d > 0`
and backoff multiplier 2, the sleep before the k-th retry (0-indexed `k`
here, i.e. 1-indexed `k+1`) is `d * 2 ^ k`; a work failing twice then
succeeding is invoked exactly 3 times, returns the success value and
sleeps `[d, 2 * d]`; a work that always fails is invoked exactly 3 times
with total slept delay `d * (1 + 2)`. -/
theorem C1_backoff_schedule {E A : Type} (func : Nat → Except E A) (d : ℚ)
    (_hd : 0 < d) :
    (∀ (k : Nat) (hk : k < (execute_with_retry func 3 d).sleeps.length),
        (execute_with_retry func 3 d).sleeps.get ⟨k, hk⟩ = d * 2 ^ k) ∧
    (∀ (e0 e1 : E) (a : A), func 0 = Except.error e0 →
        func 1 = Except.error e1 → func 2 = Except.ok a →
        (execute_with_retry func 3 d).result = PyResult.ok a ∧
        (execute_with_retry func 3 d).calls = 3 ∧
        (execute_with_retry func 3 d).sleeps = [d, 2 * d]) ∧
    (∀ errs : Nat → E, (∀ j, j < 3 → func j = Except.error (errs j)) →
        (execute_with_retry func 3 d).calls = 3 ∧
        (execute_with_retry func 3 d).sleeps.sum = d * (1 + 2)) := by
  refine ⟨?_, ?_, ?_⟩
  · intro k
    unfold execute_with_retry
    obtain ⟨s, hs⟩ := retryAux_sleeps_shape func 3 d 3 0
    rw [hs]
    intro hk
    simpa using backoffSleeps_get d s 0 k hk
  · intro e0 e1 a h0 h1 h2
    have hfail : ∀ j, 0 ≤ j → j < 2 → ∃ e, func j = Except.error e := by
      intro j _ hj
      interval_cases j
      · exact ⟨e0, h0⟩
      · exact ⟨e1, h1⟩
    have h := retryAux_first_success func 3 d 2 a h2 3 0 rfl (by omega)
      (by omega) hfail
    unfold execute_with_retry
    rw [h]
    refine ⟨rfl, rfl, ?_⟩
    simp [backoffSleeps, mul_comm]
  · intro errs hfail
    have h := retryAux_all_fail func 3 d errs 3 0 rfl (by omega)
      (fun j _ hj => hfail j hj)
    unfold execute_with_retry
    rw [h]
    refine ⟨rfl, ?_⟩
    simp [backoffSleeps]
    ring

/-- Witness for C1 at a concrete work failing twice then succeeding, with
`d = 1`: the two sleeps are `[1, 2]`. -/
theorem C1_backoff_schedule_witness :
    (execute_with_retry
      (fun j => if j < 2 then (Except.error j : Except Nat Nat) else Except.ok 7)
      3 1).sleeps = [(1 : ℚ), 2] := by
  have h := (C1_backoff_schedule
      (fun j => if j < 2 then (Except.error j : Except Nat Nat) else Except.ok 7)
      1 (by norm_num)).2.1 0 1 7 rfl rfl rfl
  rw [h.2.2]
  norm_num

/-- C2: for every work and every `maxAttempts n ≥ 1`: if the first success
is the `i`-th invocation (0-indexed, all earlier ones raising), the
executor returns that result after exactly `i + 1` invocations having slept
only the `i` times preceding it (no delay after the success); if all `n`
invocations raise, it re-raises the last invocation's exception unchanged
after exactly `n` invocations. -/
theorem C2_retry_contract {E A : Type} (func : Nat → Except E A) (n : Nat)
    (d : ℚ) (hn : 1 ≤ n) :
    (∀ (i : Nat) (a : A), i < n → func i = Except.ok a →
        (∀ j, j < i → ∃ e, func j = Except.error e) →
        (execute_with_retry func n d).result = PyResult.ok a ∧
        (execute_with_retry func n d).calls = i + 1 ∧
        (execute_with_retry func n d).sleeps.length = i) ∧
    (∀ errs : Nat → E, (∀ j, j < n → func j = Except.error (errs j)) →
        (execute_with_retry func n d).result = PyResult.exn (errs (n - 1)) ∧
        (execute_with_retry func n d).calls = n) := by
  constructor
  · intro i a hi hok hfail
    have h := retryAux_first_success func n d i a hok n 0 (by omega)
      (by omega) hi (fun j _ hj => hfail j hj)
    unfold execute_with_retry
    rw [h]
    refine ⟨rfl, rfl, ?_⟩
    simp [backoffSleeps_length]
  · intro errs hfail
    have h := retryAux_all_fail func n d errs n 0 (by omega) (by omega)
      (fun j _ hj => hfail j hj)
    unfold execute_with_retry
    rw [h]
    exact ⟨rfl, rfl⟩

/-- Witness for C2 at `n = 2` with a work that always fails: the second
(last) invocation's exception is re-raised after exactly 2 invocations. -/
theorem C2_retry_contract_witness :
    (execute_with_retry (fun j => (Except.error j : Except Nat Nat)) 2 1).result
        = PyResult.exn 1 ∧
    (execute_with_retry (fun j => (Except.error j : Except Nat Nat)) 2 1).calls
        = 2 := by
  have h := (C2_retry_contract (fun j => (Except.error j : Except Nat Nat))
      2 1 (by omega)).2 (fun j => j) (fun j _ => rfl)
  simpa using h

/-! ## BM25 sparse-encoder lifecycle (`p4_retrieval_service.py`)

`RetrievalAndIndexingService.__init__` builds the corpus from the optional
`chunks` argument, then either fits the BM25 encoder and saves it
(indexing mode, non-empty corpus) or attempts to load a persisted dump
(retrieval mode, empty corpus), raising a `RuntimeError` when the load
reports failure. The filesystem at the dump path is modelled as a
`DiskFile`; success of the dump write is modelled by a boolean. -/

/-- The BM25 encoder's only state relevant here: the corpus statistics it
was fitted on, or `none` while unfitted. -/
structure BM25Encoder where
  fitted : Option (List String)
deriving DecidableEq, Repr

/-- Model of `BM25Encoder.fit(corpus)`. -/
def BM25Encoder.fit (_m : BM25Encoder) (corpus : List String) : BM25Encoder :=
  { fitted := some corpus }

/-- The file at the BM25 dump path: absent, present but unparseable, or a
valid dump of some fitted statistics. -/
inductive DiskFile where
  | absent
  | corrupt
  | valid (corpus : List String)
deriving DecidableEq, Repr

/-- Model of `_load_bm25_model`: returns the (possibly updated) encoder,
the boolean the method returns, and whether the load-error message was
printed. A missing file returns `False` silently; an unparseable file
prints the error and returns `False`; a valid file loads and returns
`True`. -/
def load_bm25_model (m : BM25Encoder) : DiskFile → BM25Encoder × Bool × Bool
  | DiskFile.absent => (m, false, false)
  | DiskFile.corrupt => (m, false, true)
  | DiskFile.valid c => ({ fitted := some c }, true, false)

/-- The only error `__init__` raises in the BM25 block: the `RuntimeError`
telling the user to run the indexing script first. -/
inductive InitError where
  | runtimeNotFitted
deriving DecidableEq, Repr

/-- Observable trace of the BM25 block of
`RetrievalAndIndexingService.__init__`. -/
structure InitResult where
  encoder : BM25Encoder
  fitCalls : Nat
  saveAttempts : Nat
  saveWarning : Bool
  loadAttempts : Nat
  loadErrorPrinted : Bool
  raisedError : Option InitError
  reachedPineconeSetup : Bool
deriving DecidableEq, Repr

/-- Model of the BM25 fit-or-load block of
`RetrievalAndIndexingService.__init__(embedding_model, chunks)`.
`chunks` is `None` or a list of chunk texts; `dump_write_ok` says whether
`sparse_model.dump(path)` succeeds (`_save_bm25_model` swallows a dump
failure, printing a warning). The Pinecone connection and index setup in
the source run only after this block completes without raising. -/
def service_init (chunks : Option (List String)) (file : DiskFile)
    (dump_write_ok : Bool) : InitResult :=
  let corpus : List String := match chunks with
    | some cs => cs
    | none => []
  let sparse_model : BM25Encoder := { fitted := none }
  if corpus.isEmpty then
    let r := load_bm25_model sparse_model file
    if r.2.1 then
      { encoder := r.1, fitCalls := 0, saveAttempts := 0, saveWarning := false,
        loadAttempts := 1, loadErrorPrinted := r.2.2,
        raisedError := none, reachedPineconeSetup := true }
    else
      { encoder := r.1, fitCalls := 0, saveAttempts := 0, saveWarning := false,
        loadAttempts := 1, loadErrorPrinted := r.2.2,
        raisedError := some InitError.runtimeNotFitted,
        reachedPineconeSetup := false }
  else
    let m1 := sparse_model.fit corpus
    { encoder := m1, fitCalls := 1, saveAttempts := 1,
      saveWarning := !dump_write_ok,
      loadAttempts := 0, loadErrorPrinted := false,
      raisedError := none, reachedPineconeSetup := true }

/-- C3: constructing the service in query-time mode (chunks absent or
empty) never fits the encoder; exactly one load of the persisted state is
attempted, and when the dump file is not a valid one the construction
raises the fatal `RuntimeError` instead of falling back to fitting. -/
theorem C3_query_mode_never_fits (chunks : Option (List String))
    (file : DiskFile) (wok : Bool)
    (h : chunks = none ∨ chunks = some []) :
    (service_init chunks file wok).fitCalls = 0 ∧
    (service_init chunks file wok).loadAttempts = 1 ∧
    ((∀ c, file ≠ DiskFile.valid c) →
      (service_init chunks file wok).raisedError
          = some InitError.runtimeNotFitted ∧
      (service_init chunks file wok).fitCalls = 0) := by
  rcases h with h | h <;> subst h <;>
    cases file <;>
    simp [service_init, load_bm25_model]

/-- Witness for C3: query mode with no chunks and a missing dump file. -/
theorem C3_query_mode_never_fits_witness :
    (service_init none DiskFile.absent true).fitCalls = 0 ∧
    (service_init none DiskFile.absent true).loadAttempts = 1 ∧
    (service_init none DiskFile.absent true).raisedError
        = some InitError.runtimeNotFitted := by
  have h := C3_query_mode_never_fits none DiskFile.absent true (Or.inl rfl)
  exact ⟨h.1, h.2.1, (h.2.2 (fun c hc => by cases hc)).1⟩

/-- C4 counterexample: constructing the service with an empty corpus while
a valid persisted dump exists succeeds (no error at all, so in particular
no `EmptyCorpusError`), refuting "always fails"; no persistence write is
attempted either. -/
theorem C4_counterexample_empty_corpus_succeeds :
    (service_init (some []) (DiskFile.valid ["doc"]) true).raisedError = none ∧
    (service_init (some []) (DiskFile.valid ["doc"]) true).saveAttempts = 0 := by
  constructor <;> rfl

/-- C4 amended: with an empty corpus the service never fits and never
attempts a persistence write; it instead attempts to load the persisted
encoder state and raises its `RuntimeError` exactly when that load reports
failure (there is no `EmptyCorpusError` in the code). -/
theorem C4_amended_empty_corpus (file : DiskFile) (wok : Bool) :
    (service_init (some []) file wok).fitCalls = 0 ∧
    (service_init (some []) file wok).saveAttempts = 0 ∧
    ((service_init (some []) file wok).raisedError
        = some InitError.runtimeNotFitted
      ↔ (load_bm25_model { fitted := none } file).2.1 = false) := by
  cases file <;> simp [service_init, load_bm25_model]

/-- C5 counterexample: a missing dump file and a corrupt dump file make
the constructor raise the very same error (the one `RuntimeError`), not
two distinct error types. -/
theorem C5_counterexample_same_error :
    (service_init none DiskFile.absent true).raisedError
        = (service_init none DiskFile.corrupt true).raisedError ∧
    (service_init none DiskFile.absent true).raisedError
        = some InitError.runtimeNotFitted := by
  constructor <;> rfl

/-- C5 amended: both a missing and an unparseable dump file cause the load
to fail and the constructor to raise the same fatal `RuntimeError` (the
corrupt case additionally printing a load-error message); in both cases no
fit happens and Pinecone setup is never reached. -/
theorem C5_amended_load_failures (wok : Bool) :
    ((service_init none DiskFile.absent wok).raisedError
        = some InitError.runtimeNotFitted ∧
      (service_init none DiskFile.absent wok).loadErrorPrinted = false) ∧
    ((service_init none DiskFile.corrupt wok).raisedError
        = some InitError.runtimeNotFitted ∧
      (service_init none DiskFile.corrupt wok).loadErrorPrinted = true) ∧
    (service_init none DiskFile.absent wok).fitCalls = 0 ∧
    (service_init none DiskFile.corrupt wok).fitCalls = 0 ∧
    (service_init none DiskFile.absent wok).reachedPineconeSetup = false ∧
    (service_init none DiskFile.corrupt wok).reachedPineconeSetup = false := by
  cases wok <;> simp [service_init, load_bm25_model]

/-- C6: for any non-empty corpus, a failing dump write only produces a
warning and is not propagated: construction raises nothing, the fit
happens, the in-memory fitted state is the corpus itself, and the process
continues to Pinecone setup. -/
theorem C6_persist_failure_nonfatal (cs : List String) (h : cs ≠ [])
    (file : DiskFile) (wok : Bool) :
    (service_init (some cs) file wok).raisedError = none ∧
    (service_init (some cs) file wok).fitCalls = 1 ∧
    (service_init (some cs) file wok).encoder.fitted = some cs ∧
    (wok = false → (service_init (some cs) file wok).saveWarning = true) ∧
    (service_init (some cs) file wok).reachedPineconeSetup = true := by
  have hne : cs.isEmpty = false := by
    cases cs with
    | nil => exact absurd rfl h
    | cons a l => rfl
  cases wok <;>
    simp [service_init, hne, BM25Encoder.fit]

/-- Witness for C6: a one-document corpus with a failing dump write. -/
theorem C6_persist_failure_nonfatal_witness :
    (service_init (some ["doc"]) DiskFile.absent false).raisedError = none ∧
    (service_init (some ["doc"]) DiskFile.absent false).encoder.fitted
        = some ["doc"] ∧
    (service_init (some ["doc"]) DiskFile.absent false).saveWarning = true := by
  have h := C6_persist_failure_nonfatal ["doc"] (by simp) DiskFile.absent false
  exact ⟨h.1, h.2.2.1, h.2.2.2.1 rfl⟩

/-! ## Pinecone index create-or-reuse (`_get_or_create_pinecone_index`) -/

/-- A remote Pinecone index as far as this code observes it. -/
structure IndexInfo where
  name : String
  dimension : Nat
  metric : String
deriving DecidableEq, Repr

/-- The remote Pinecone project state: the list of existing indexes. -/
structure PineconeState where
  indexes : List IndexInfo
deriving DecidableEq, Repr

/-- Model of `_get_or_create_pinecone_index`: lists existing index names;
if the configured name is absent, creates it with the configured dimension
and metric `"dotproduct"`; returns the new remote state together with a
handle (`self.pc.Index(name)`, identified by the name). -/
def get_or_create_pinecone_index (st : PineconeState) (index_name : String)
    (dimension : Nat) : PineconeState × String :=
  let index_names := st.indexes.map IndexInfo.name
  if index_name ∉ index_names then
    ({ indexes := st.indexes ++ [⟨index_name, dimension, "dotproduct"⟩] },
      index_name)
  else
    (st, index_name)

/-- C7: `ensureIndex` is create-if-absent and idempotent: an absent name is
created with the configured dimension and metric; a present name yields a
handle with no creation and no schema modification; a second call with the
same name changes nothing and returns the same handle. -/
theorem C7_ensure_index_idempotent (st : PineconeState) (name : String)
    (dim : Nat) :
    (name ∉ st.indexes.map IndexInfo.name →
      (get_or_create_pinecone_index st name dim).1.indexes
          = st.indexes ++ [⟨name, dim, "dotproduct"⟩] ∧
      (get_or_create_pinecone_index st name dim).2 = name) ∧
    (name ∈ st.indexes.map IndexInfo.name →
      (get_or_create_pinecone_index st name dim).1 = st ∧
      (get_or_create_pinecone_index st name dim).2 = name) ∧
    get_or_create_pinecone_index
        (get_or_create_pinecone_index st name dim).1 name dim
      = ((get_or_create_pinecone_index st name dim).1,
         (get_or_create_pinecone_index st name dim).2) := by
  refine ⟨?_, ?_, ?_⟩
  · intro habs
    simp [get_or_create_pinecone_index, habs]
  · intro hmem
    simp [get_or_create_pinecone_index, hmem]
  · by_cases hmem : name ∈ st.indexes.map IndexInfo.name
    · simp [get_or_create_pinecone_index, hmem]
    · simp [get_or_create_pinecone_index, hmem]

/-- Witness for C7: starting from an empty remote state, the first call
creates the index and the second call is a no-op returning the same
handle. -/
theorem C7_ensure_index_idempotent_witness :
    (get_or_create_pinecone_index ⟨[]⟩ "idx" 768).1.indexes
        = [⟨"idx", 768, "dotproduct"⟩] ∧
    get_or_create_pinecone_index
        (get_or_create_pinecone_index ⟨[]⟩ "idx" 768).1 "idx" 768
      = ((get_or_create_pinecone_index ⟨[]⟩ "idx" 768).1,
         (get_or_create_pinecone_index ⟨[]⟩ "idx" 768).2) := by
  have h := C7_ensure_index_idempotent ⟨[]⟩ "idx" 768
  exact ⟨(h.1 (by simp)).1, h.2.2⟩

/-! ## Media transcription error tagging
(`AudioProcessor._transcribe_file`, `VideoProcessor._transcribe_audio`) -/

/-- Model of `AudioProcessor._transcribe_file(audio_path)`: a missing file
short-circuits with a not-found tag; otherwise `attempt_transcription` is
run under `_execute_with_retry` (defaults `max_retries = 3`,
`initial_delay = 1.0`) and any exception escaping the retries is converted
to the `"[Audio Transcription Failed: ...]"` tag string. Exceptions are
modelled as their `str(e)` rendering. The `fellThrough` arm is unreachable
because `max_retries = 3 ≥ 1`. -/
def transcribe_file (audio_file_exists : Bool) (audio_path : String)
    (attempt_transcription : Nat → Except String String) : String :=
  if audio_file_exists = false then
    "[Error] Audio file not found: " ++ audio_path
  else
    match (execute_with_retry attempt_transcription 3 1).result with
    | PyResult.ok t => t
    | PyResult.exn e => "[Audio Transcription Failed: " ++ e ++ "]"
    | PyResult.fellThrough => ""

/-- Model of `VideoProcessor._transcribe_audio(video_path)` after audio
extraction: `none` means no audio track was extracted; otherwise the same
retry-then-tag logic as the audio processor is applied. -/
def transcribe_audio (audio_file_path : Option String)
    (attempt_transcription : Nat → Except String String) : String :=
  match audio_file_path with
  | none => "[No audio track found in video]"
  | some _ =>
    match (execute_with_retry attempt_transcription 3 1).result with
    | PyResult.ok t => t
    | PyResult.exn e => "[Audio Transcription Failed: " ++ e ++ "]"
    | PyResult.fellThrough => ""

/-- C8: when every transcription attempt fails, both media transcription
operations return the error-tagged string built from the last attempt's
exception instead of letting the exception escape. -/
theorem C8_transcription_error_tagged (audio_path video_audio_path : String)
    (attempts : Nat → Except String String) (errs : Nat → String)
    (h : ∀ j, j < 3 → attempts j = Except.error (errs j)) :
    transcribe_file true audio_path attempts
        = "[Audio Transcription Failed: " ++ errs 2 ++ "]" ∧
    transcribe_audio (some video_audio_path) attempts
        = "[Audio Transcription Failed: " ++ errs 2 ++ "]" := by
  have hres := retryAux_all_fail attempts 3 1 errs 3 0 rfl (by omega)
    (fun j _ hj => h j hj)
  have hr : (execute_with_retry attempts 3 1).result = PyResult.exn (errs 2) := by
    unfold execute_with_retry
    rw [hres]
  constructor
  · simp [transcribe_file, hr]
  · simp [transcribe_audio, hr]

/-- Witness for C8 at a concrete always-failing attempt function. -/
theorem C8_transcription_error_tagged_witness :
    transcribe_file true "a.mp3" (fun _ => Except.error "boom")
        = "[Audio Transcription Failed: boom]" ∧
    transcribe_audio (some "/tmp/temp_audio_extract.mp3")
        (fun _ => Except.error "boom")
        = "[Audio Transcription Failed: boom]" := by
  have h := C8_transcription_error_tagged "a.mp3" "/tmp/temp_audio_extract.mp3"
    (fun _ => Except.error "boom") (fun _ => "boom") (fun j _ => rfl)
  exact h

/-! ## Media file-type classification (`get_file_type` in `main.py`)

`get_file_type` computes `os.path.splitext(path.lower())[1]` and matches
it against three extension lists. `str.lower` is modelled as ASCII
character-wise lowercasing (the recognised extensions are all ASCII) and
`os.path.splitext` follows CPython's `genericpath._splitext` with posix
separators: the extension starts at the last dot, unless every character
between the last slash and that dot is itself a dot. -/

/-- Model of Python's `str.rfind(char)` on a character list: highest index
holding `c`, or `-1` when absent. -/
def pyRfind (l : List Char) (c : Char) : Int :=
  (List.range l.length).foldl
    (fun acc i => if l.get? i = some c then (i : Int) else acc) (-1)

/-- Model of `os.path.splitext` (posix) on a character list, following
CPython's `genericpath._splitext` with `sep = '/'`, `extsep = '.'`. -/
def splitext_list (p : List Char) : List Char × List Char :=
  let sepIndex := pyRfind p '/'
  let dotIndex := pyRfind p '.'
  if sepIndex < dotIndex then
    let start := (sepIndex + 1).toNat
    let dot := dotIndex.toNat
    if (List.range (dot - start)).any (fun k => p.get? (start + k) ≠ some '.') then
      (p.take dot, p.drop dot)
    else
      (p, [])
  else
    (p, [])

/-- Model of `os.path.splitext` on strings. -/
def splitext (p : String) : String × String :=
  let r := splitext_list p.data
  (String.mk r.1, String.mk r.2)

/-- Model of Python's `str.lower` restricted to ASCII case mapping. -/
def py_lower (s : String) : String :=
  String.mk (s.data.map Char.toLower)

/-- Model of `get_file_type(path)` from `main.py` (the source binds
`ext = os.path.splitext(path.lower())[1]` once; it is inlined here). -/
def get_file_type (path : String) : String :=
  if (splitext (py_lower path)).2 ∈ ([".mp4", ".avi", ".mov"] : List String) then
    "video"
  else if (splitext (py_lower path)).2
      ∈ ([".jpg", ".jpeg", ".png", ".webp"] : List String) then
    "image"
  else if (splitext (py_lower path)).2
      ∈ ([".mp3", ".wav", ".flac", ".m4a"] : List String) then
    "audio"
  else
    "unknown"

/-- C9: the classifier is total — every path yields one of the four tags —
and is determined solely by the extension of the lowercased path (so two
paths with the same lowercased extension classify identically, and
`"clip.MP4"` classifies as video); any extension outside the three
recognised sets yields `"unknown"`. -/
theorem C9_get_file_type_classifier (p q : String) :
    (get_file_type p = "video" ∨ get_file_type p = "image" ∨
      get_file_type p = "audio" ∨ get_file_type p = "unknown") ∧
    ((splitext (py_lower p)).2 = (splitext (py_lower q)).2 →
      get_file_type p = get_file_type q) ∧
    get_file_type "clip.MP4" = "video" ∧
    ((splitext (py_lower p)).2 ∉
        ([".mp4", ".avi", ".mov", ".jpg", ".jpeg", ".png", ".webp",
          ".mp3", ".wav", ".flac", ".m4a"] : List String) →
      get_file_type p = "unknown") := by
  refine ⟨?_, ?_, ?_, ?_⟩
  · unfold get_file_type
    split_ifs <;> simp
  · intro h
    unfold get_file_type
    rw [h]
  · decide
  · intro h
    simp only [List.mem_cons, not_or, List.not_mem_nil] at h
    obtain ⟨h1, h2, h3, h4, h5, h6, h7, h8, h9, h10, h11, _⟩ := h
    simp [get_file_type, h1, h2, h3, h4, h5, h6, h7, h8, h9, h10, h11]

/-- Witness for C9: a path with an uppercase recognised extension matches
its lowercase twin, and an unrecognised extension is unknown. -/
theorem C9_get_file_type_classifier_witness :
    get_file_type "photo.JPG" = get_file_type "photo.jpg" ∧
    get_file_type "notes.txt" = "unknown" := by
  constructor
  · exact (C9_get_file_type_classifier "photo.JPG" "photo.jpg").2.1 (by decide)
  · exact (C9_get_file_type_classifier "notes.txt" "x").2.2.2 (by decide)

/-! ## Document dispatch (`DocumentProcessor.load_and_chunk`) -/

/-- Model of Python's `str.endswith(suffix)`. -/
def ends_with (s suffix : String) : Bool :=
  decide (List.drop (s.data.length - suffix.data.length) s.data = suffix.data)

/-- Observable trace of `DocumentProcessor.load_and_chunk`: the returned
chunks or raised `ValueError` message, plus how many loader and chunker
invocations happened. -/
structure LoadTrace where
  result : Except String (List String)
  loaderCalls : Nat
  chunkerCalls : Nat
deriving Repr

/-- Model of `DocumentProcessor.load_and_chunk(embed_model)`: dispatches
on the lowercased path's extension, raising a `ValueError` naming the
rejected path for anything that is not `.pdf` or `.csv`; loaded documents
(modelled as the lists the two loaders would return) are then chunked by
`splitter` (the `SemanticChunker`), with an empty load short-circuiting to
`[]`. -/
def load_and_chunk (file_path : String)
    (pdf_documents csv_documents : List String)
    (splitter : List String → List String) : LoadTrace :=
  let file_path_lower := py_lower file_path
  if ends_with file_path_lower ".pdf" then
    let documents := pdf_documents
    if documents.isEmpty then ⟨Except.ok [], 1, 0⟩
    else ⟨Except.ok (splitter documents), 1, 1⟩
  else if ends_with file_path_lower ".csv" then
    let documents := csv_documents
    if documents.isEmpty then ⟨Except.ok [], 1, 0⟩
    else ⟨Except.ok (splitter documents), 1, 1⟩
  else
    ⟨Except.error ("Unsupported file type: " ++ file_path
        ++ ". Only .pdf and .csv are supported."), 0, 0⟩

/-- C10: any path whose lowercased form ends in neither `.pdf` nor `.csv`
raises the `ValueError` naming the rejected path with no loading and no
chunking performed; conversely any loading implies one of the two
recognised extensions. -/
theorem C10_load_and_chunk_dispatch (p : String)
    (pdf_documents csv_documents : List String)
    (splitter : List String → List String) :
    (ends_with (py_lower p) ".pdf" = false →
      ends_with (py_lower p) ".csv" = false →
      (load_and_chunk p pdf_documents csv_documents splitter).result
          = Except.error ("Unsupported file type: " ++ p
              ++ ". Only .pdf and .csv are supported.") ∧
      (load_and_chunk p pdf_documents csv_documents splitter).loaderCalls = 0 ∧
      (load_and_chunk p pdf_documents csv_documents splitter).chunkerCalls = 0) ∧
    (0 < (load_and_chunk p pdf_documents csv_documents splitter).loaderCalls →
      ends_with (py_lower p) ".pdf" = true ∨
      ends_with (py_lower p) ".csv" = true) := by
  constructor
  · intro h1 h2
    simp [load_and_chunk, h1, h2]
  · intro h
    by_cases h1 : ends_with (py_lower p) ".pdf" = true
    · exact Or.inl h1
    · by_cases h2 : ends_with (py_lower p) ".csv" = true
      · exact Or.inr h2
      · exfalso
        rw [Bool.not_eq_true] at h1 h2
        simp [load_and_chunk, h1, h2] at h

/-- Witness for C10: a `.txt` path is rejected with the `ValueError`
message and zero loader calls, and a `.PDF` path does load. -/
theorem C10_load_and_chunk_dispatch_witness :
    (load_and_chunk "x.txt" ["d"] ["r"] id).result
        = Except.error "Unsupported file type: x.txt. Only .pdf and .csv are supported." ∧
    (load_and_chunk "x.txt" ["d"] ["r"] id).loaderCalls = 0 := by
  have h := (C10_load_and_chunk_dispatch "x.txt" ["d"] ["r"] id).1
    (by decide) (by decide)
  exact ⟨h.1, h.2.1⟩

end TrialRAG
